import Mathlib

/-!
Verification development for the mask-guided segmentation-and-replacement
pipeline (`src/app.py`, `ImageSegmentationApp.process_segmentation`).

The program is shallowly embedded: PIL images become `PImage` values
(mode, size, per-pixel channel lists), the PIL library calls used by the
source (`split`, `resize`, `Image.composite`) are translated from Pillow's
documented semantics and its `Paste.c` blending arithmetic, the cv2 calls
(`findContours` with `RETR_EXTERNAL`, `moments`) are translated from
OpenCV's documented semantics (one outer contour per top-level 8-connected
foreground component, polygon moments via Green's formula), and the
orchestration of `process_segmentation` becomes `run`.  Python exceptions
are modelled with `Except String`: an `Except.error` escaping `run` models
an uncaught Python exception crossing into the presentation layer.
-/

/-- Pixel modes reachable in this pipeline (PIL mode strings "RGB", "RGBA", "L"). -/
inductive Mode where
  | RGB
  | RGBA
  | L
deriving DecidableEq, Repr

/-- Number of channels per pixel for a mode. -/
def Mode.channels : Mode → Nat
  | .RGB => 3
  | .RGBA => 4
  | .L => 1

/-- A PIL image: mode, size, and per-pixel channel values.
`px x y` returns the channel list at column `x`, row `y` (top-left origin). -/
structure PImage where
  mode : Mode
  width : Nat
  height : Nat
  px : Nat → Nat → List Nat

/-- Well-formedness of an image: positive size, each in-range pixel has
exactly `mode.channels` channel values, each of them an 8-bit value. -/
def PImage.Valid (img : PImage) : Prop :=
  0 < img.width ∧ 0 < img.height ∧
    ∀ x, x < img.width → ∀ y, y < img.height →
      (img.px x y).length = img.mode.channels ∧ ∀ v ∈ img.px x y, v ≤ 255

/-- Two images are pixel-identical: same mode, same size, same pixels. -/
def PIdentical (a b : PImage) : Prop :=
  a.mode = b.mode ∧ a.width = b.width ∧ a.height = b.height ∧
    ∀ x, x < a.width → ∀ y, y < a.height → a.px x y = b.px x y

/-- Value of a single-channel (mode "L") image at a pixel. -/
def maskVal (m : PImage) (x y : Nat) : Nat :=
  (m.px x y).headD 0

/-- `drawn_mask.split()[-1]` (src/app.py line 38): the last band of an image
as a mode-"L" image (for RGBA input this is the alpha channel). -/
def splitLast (img : PImage) : PImage :=
  { mode := .L, width := img.width, height := img.height,
    px := fun x y => [(img.px x y).getLast?.getD 0] }

/-- Pillow's fixed-point multiply-divide by 255 (`MULDIV255` in `Paste.c`):
`tmp = a*b + 128; ((tmp >> 8) + tmp) >> 8`. -/
def muldiv255 (a b : Nat) : Nat :=
  ((a * b + 128) / 256 + (a * b + 128)) / 256

/-- ITU-R 601-2 luma transform used by PIL `convert("L")`
(documented as `L = R * 299/1000 + G * 587/1000 + B * 114/1000`). -/
def luma (c : List Nat) : Nat :=
  (c.getD 0 0 * 299 + c.getD 1 0 * 587 + c.getD 2 0 * 114) / 1000

/-- Channel-list conversion between modes, following PIL `convert`. -/
def convertPx (src dst : Mode) (c : List Nat) : List Nat :=
  match src, dst with
  | .L, .RGB => [c.getD 0 0, c.getD 0 0, c.getD 0 0]
  | .L, .RGBA => [c.getD 0 0, c.getD 0 0, c.getD 0 0, 255]
  | .RGB, .RGBA => c.take 3 ++ [255]
  | .RGBA, .RGB => c.take 3
  | .RGB, .L => [luma c]
  | .RGBA, .L => [luma c]
  | _, _ => c

/-- PIL `Image.convert`: same size, converted mode and pixels. -/
def convertIm (img : PImage) (dst : Mode) : PImage :=
  { mode := dst, width := img.width, height := img.height,
    px := fun x y => convertPx img.mode dst (img.px x y) }

/-- PIL `Image.resize((w, h))` (src/app.py line 78).  The spec admits any
single deterministic resampling policy; we use nearest-neighbour index
mapping `src_x = x * srcW / w`, which preserves mode and picks source pixels. -/
def resize (img : PImage) (w h : Nat) : PImage :=
  { mode := img.mode, width := w, height := h,
    px := fun x y => img.px (x * img.width / w) (y * img.height / h) }

/-- Per-channel alpha blend of `Paste.c`'s `BLEND` macro:
`MULDIV255(below, 255 - m) + MULDIV255(above, m)`. -/
def blendChan (m below above : Nat) : Nat :=
  muldiv255 below (255 - m) + muldiv255 above m

/-- The image produced by a successful masked paste: the base image with
`pasted` blended on top per the mask, clipped to the pasted image's extent. -/
def blendImage (base pasted maskIm : PImage) : PImage :=
  { mode := base.mode, width := base.width, height := base.height,
    px := fun x y =>
      if x < pasted.width ∧ y < pasted.height then
        List.zipWith (fun below above => blendChan (maskVal maskIm x y) below above)
          (base.px x y) (pasted.px x y)
      else base.px x y }

/-- PIL `Image.composite(image1, image2, mask)` = `image2.copy()` followed by
`paste(image1, None, mask)`.  Per Pillow:
* the mask must be a transparency mask (we only model mode "L"; other modes
  raise `ValueError("bad transparency mask")`);
* if the modes differ, the pasted image is converted to the base image's
  mode, except that pasting "RGBA" onto "RGB" goes straight to the C layer
  (both store 4-byte pixels; the blend reads the first three channels);
* the C paste rejects a mask whose size differs from the pasted image's size
  (`ValueError("images do not match")`), and clips the paste region to the
  base image;
* where the mask is 255 the pasted pixel is taken, where it is 0 the base
  pixel is kept, and intermediate values blend via `BLEND`. -/
def pilComposite (image1 image2 maskIm : PImage) : Except String PImage :=
  if maskIm.mode ≠ Mode.L then
    .error "bad transparency mask"
  else
    let pasted :=
      if image2.mode ≠ image1.mode ∧
          ¬(image2.mode = Mode.RGB ∧ image1.mode = Mode.RGBA) then
        convertIm image1 image2.mode
      else image1
    if maskIm.width ≠ pasted.width ∨ maskIm.height ≠ pasted.height then
      .error "images do not match"
    else
      .ok (blendImage image2 pasted maskIm)

/-- `Compositor.composite` (src/app.py lines 77-80): resize the replacement
to the original's size, then `Image.composite(replacement, original, mask)`. -/
def compositor (original replacement maskIm : PImage) : Except String PImage :=
  pilComposite (resize replacement original.width original.height) original maskIm

/-- Foreground test for the binary mask (`cv2.findContours` treats any
non-zero pixel as foreground; out-of-range coordinates are background). -/
def fgAt (img : PImage) (p : Int × Int) : Bool :=
  0 ≤ p.1 && p.1 < (img.width : Int) && 0 ≤ p.2 && p.2 < (img.height : Int) &&
    maskVal img p.1.toNat p.2.toNat != 0

/-- In-grid background test (4-connected background regions of the mask). -/
def bgAt (img : PImage) (p : Int × Int) : Bool :=
  0 ≤ p.1 && p.1 < (img.width : Int) && 0 ≤ p.2 && p.2 < (img.height : Int) &&
    maskVal img p.1.toNat p.2.toNat == 0

/-- 8-neighbourhood offsets (foreground connectivity of `findContours`). -/
def dirs8 : List (Int × Int) :=
  [(-1, -1), (0, -1), (1, -1), (-1, 0), (1, 0), (-1, 1), (0, 1), (1, 1)]

/-- 4-neighbourhood offsets (background connectivity of `findContours`). -/
def dirs4 : List (Int × Int) := [(0, -1), (-1, 0), (1, 0), (0, 1)]

/-- Translate a point by an offset. -/
def shift (p d : Int × Int) : Int × Int := (p.1 + d.1, p.2 + d.2)

/-- Neighbours of a point for a given offset set. -/
def neighborsOf (ds : List (Int × Int)) (p : Int × Int) : List (Int × Int) :=
  ds.map (shift p)

/-- Fuel-bounded breadth-first search collecting, in first-visited order, the
region of `keep`-pixels reachable from the frontier through `adj`. -/
def bfsAux (adj : Int × Int → List (Int × Int)) (keep : Int × Int → Bool) :
    Nat → List (Int × Int) → List (Int × Int) → List (Int × Int)
  | 0, _, visited => visited
  | _ + 1, [], visited => visited
  | fuel + 1, p :: frontier, visited =>
    if visited.contains p then bfsAux adj keep fuel frontier visited
    else bfsAux adj keep fuel (frontier ++ (adj p).filter keep) (visited ++ [p])

/-- Enough fuel to exhaust any search over the grid. -/
def fuelFor (img : PImage) : Nat := 9 * (img.width * img.height) + 9

/-- All grid coordinates in raster order (row by row, left to right),
matching the scan order in which `findContours` discovers components. -/
def rasterPixels (img : PImage) : List (Int × Int) :=
  (List.range img.height).flatMap
    (fun y => (List.range img.width).map (fun x => (Int.ofNat x, Int.ofNat y)))

/-- Foreground pixels in raster order. -/
def fgPixels (img : PImage) : List (Int × Int) :=
  (rasterPixels img).filter (fgAt img)

/-- The 8-connected foreground component containing `p`
(first element of the result is `p` itself). -/
def componentOf (img : PImage) (p : Int × Int) : List (Int × Int) :=
  bfsAux (neighborsOf dirs8) (fgAt img) (fuelFor img) [p] []

/-- The 8-connected foreground components of the mask, in the raster order
of their first (topmost, then leftmost) pixel. -/
def componentsOf (img : PImage) : List (List (Int × Int)) :=
  (fgPixels img).foldl
    (fun comps p => if comps.any (·.contains p) then comps else comps ++ [componentOf img p])
    []

/-- Whether a point lies on the border ring of the grid. -/
def onBorder (img : PImage) (p : Int × Int) : Bool :=
  p.1 == 0 || p.2 == 0 || p.1 == (img.width : Int) - 1 || p.2 == (img.height : Int) - 1

/-- `cv2.RETR_EXTERNAL` keeps only extreme outer contours: a component is
retrieved iff the background region just left of its first pixel is the
outer background (reaches the image border), i.e. the component is not
enclosed in a hole of another component. -/
def isTopLevel (img : PImage) (comp : List (Int × Int)) : Bool :=
  let s := comp.headD (0, 0)
  let q := (s.1 - 1, s.2)
  if !bgAt img q then true
  else (bfsAux (neighborsOf dirs4) (bgAt img) (fuelFor img) [q] []).any (onBorder img)

/-- Moore neighbourhood in clockwise order (screen coordinates, y downward)
starting at West, used for border following. -/
def mooreDirs : List (Int × Int) :=
  [(-1, 0), (-1, -1), (0, -1), (1, -1), (1, 0), (1, 1), (0, 1), (-1, 1)]

/-- Index of an offset in `mooreDirs`. -/
def dirIndex (d : Int × Int) : Nat :=
  ((List.range 8).find? (fun j => mooreDirs.getD j (0, 0) == d)).getD 0

/-- One border-following step: scan the Moore neighbourhood of `c` clockwise
starting just after the backtrack point `b`; return the first foreground
neighbour together with the background point scanned just before it. -/
def scanNext (img : PImage) (c b : Int × Int) : Option ((Int × Int) × (Int × Int)) :=
  let i := dirIndex (b.1 - c.1, b.2 - c.2)
  ((List.range 8).map (fun j =>
      (shift c (mooreDirs.getD ((i + j + 1) % 8) (0, 0)),
       shift c (mooreDirs.getD ((i + j) % 8) (0, 0))))).find?
    (fun nb => fgAt img nb.1)

/-- Fuel-bounded Moore border following with Jacob's stopping criterion
(stop on re-entering the start pixel from the start backtrack). -/
def traceAux (img : PImage) (startC startB : Int × Int) :
    Nat → (Int × Int) → (Int × Int) → List (Int × Int) → List (Int × Int)
  | 0, _, _, acc => acc
  | fuel + 1, c, b, acc =>
    match scanNext img c b with
    | none => acc
    | some (n, b') =>
      if n = startC ∧ b' = startB then acc
      else traceAux img startC startB fuel n b' (acc ++ [n])

/-- The outer contour of a component: border following started at the
component's first raster pixel (whose left neighbour is background). -/
def traceContour (img : PImage) (comp : List (Int × Int)) : List (Int × Int) :=
  let s := comp.headD (0, 0)
  let b := (s.1 - 1, s.2)
  traceAux img s b (fuelFor img) s b [s]

/-- `cv2.findContours(mask, cv2.RETR_EXTERNAL, ...)` (src/app.py line 43):
the outer contour of each top-level foreground component, in raster order of
discovery. -/
def findContoursExt (img : PImage) : List (List (Int × Int)) :=
  ((componentsOf img).filter (isTopLevel img)).map (traceContour img)

/-- Cross product of two lattice points. -/
def cross2 (p q : Int × Int) : Int := p.1 * q.2 - q.1 * p.2

/-- Twice the signed polygon area of a closed contour
(`a00` accumulator of OpenCV's `contourMoments`). -/
def contourA00 (pts : List (Int × Int)) : Int :=
  ((pts.zip (pts.rotate 1)).map (fun e => cross2 e.1 e.2)).sum

/-- Six times the signed first moment in x (`a10` of `contourMoments`). -/
def contourA10 (pts : List (Int × Int)) : Int :=
  ((pts.zip (pts.rotate 1)).map (fun e => cross2 e.1 e.2 * (e.1.1 + e.2.1))).sum

/-- Six times the signed first moment in y (`a01` of `contourMoments`). -/
def contourA01 (pts : List (Int × Int)) : Int :=
  ((pts.zip (pts.rotate 1)).map (fun e => cross2 e.1 e.2 * (e.1.2 + e.2.2))).sum

/-- Lines 44-54 of src/app.py: for one contour, the prompt point - the
centroid `(m10/m00, m01/m00)` when the zeroth moment is non-zero
(`m00 = |a00|/2`, `m10/m00 = a10/(3*a00)`, sign adjustments cancelling),
otherwise the contour's first vertex. -/
def contourPoint (pts : List (Int × Int)) : ℚ × ℚ :=
  let a := contourA00 pts
  if a ≠ 0 then
    ((contourA10 pts : ℚ) / (3 * (a : ℚ)), (contourA01 pts : ℚ) / (3 * (a : ℚ)))
  else
    let p := pts.headD (0, 0)
    ((p.1 : ℚ), (p.2 : ℚ))

/-- `PointExtractor.extract` (src/app.py lines 42-54): one prompt point per
external contour of the drawn binary mask. -/
def extract (img : PImage) : List (ℚ × ℚ) :=
  (findContoursExt img).map contourPoint

/-- Status string at src/app.py line 31. -/
def uploadMsg : String := "**❌ Error:** Please upload both images."

/-- Status string at src/app.py line 58. -/
def noMaskMsg : String := "**❌ Error:** No mask drawn. Please draw a mask on the original image."

/-- Status string at src/app.py line 63 (fallback provider warning). -/
def warnMsg : String := "**⚠️ Warning:** SAM2 model unavailable, using drawn mask as mask."

/-- Status string at src/app.py line 75 (model-backed success). -/
def successMsg : String := "**✅ Success:** Segmentation completed with SAM2."

/-- Status string built by the `except` handler at src/app.py line 86. -/
def errMsg (e : String) : String := "**❌ Error:** Segmentation error: " ++ e

/-- The Python `TypeError` raised by `None["background"]` at line 30. -/
def typeErrMsg : String := "TypeError: 'NoneType' object is not subscriptable"

/-- The Python `IndexError` raised by `image_editor["layers"][0]` on an
empty layer list at line 35. -/
def indexErrMsg : String := "IndexError: list index out of range"

/-- The gradio editor value: a dict with a `background` field and a
`layers` field (the pipeline consumes layer index 0). -/
structure EditorDict where
  background : Option PImage
  layers : List PImage

/-- The model collaborator (src/app.py lines 66-72): takes the original
image and the prompt points and yields the squeezed raw mask array
(`results[0].masks.data.numpy()` after `np.squeeze`), whose entries are
typically in [0,1] or boolean - modelled exactly as rationals. An
`Except.error` models an exception raised during model invocation. -/
def ModelFn := PImage → List (ℚ × ℚ) → Except String (List (List ℚ))

/-- Lines 72-74: `(np.squeeze(arr) * 255).astype(np.uint8)` followed by
`Image.fromarray`, yielding a mode-"L" image of the array's dimensions;
the `uint8` cast truncates toward zero and wraps modulo 256. -/
def postprocess (arr : List (List ℚ)) : PImage :=
  { mode := .L, width := (arr.headD []).length, height := arr.length,
    px := fun x y => [(⌊((arr.getD y []).getD x 0) * 255⌋).toNat % 256] }

/-- Lines 61-63, as the `FallbackProvider.refine` contract of the spec:
return the caller-supplied drawn mask unchanged, with the warning message. -/
def fallbackRefine (original : PImage) (points : List (ℚ × ℚ))
    (fallbackMask : PImage) : PImage × String :=
  (fallbackMask, warnMsg)

/-- The 4-tuple returned to the presentation layer:
`[drawn_mask, sam_mask, result_image, markdown_message]`. -/
abbrev Output := Option PImage × Option PImage × Option PImage × String

/-- The body of the `try:` block (src/app.py lines 32-82) for a present
original image, the editor's layer list, and a present replacement image;
`Except.error` models an exception raised inside the block. -/
def tryBody (modelAvailable : Bool) (model : Option ModelFn)
    (original : PImage) (layers : List PImage) (replacement : PImage) :
    Except String Output :=
  match layers with
  | [] => .error indexErrMsg
  | layer0 :: _ =>
    let drawn_mask := splitLast layer0
    let points := extract drawn_mask
    if points.isEmpty then
      .ok (none, none, some original, noMaskMsg)
    else
      let step : Except String (PImage × String) :=
        if !modelAvailable || model.isNone then
          .ok (fallbackRefine original points drawn_mask)
        else
          match model with
          | none => .ok (fallbackRefine original points drawn_mask)
          | some f =>
            match f original points with
            | .error e => .error e
            | .ok arr => .ok (postprocess arr, successMsg)
      match step with
      | .error e => .error e
      | .ok (sam_mask, model_message) =>
        match compositor original replacement sam_mask with
        | .error e => .error e
        | .ok result => .ok (some drawn_mask, some sam_mask, some result, model_message)

/-- The upload validation (line 30) plus the `try`/`except` mapping (lines
32-86): always yields a 4-tuple once the editor dict itself subscripted
successfully. -/
def runChecked (modelAvailable : Bool) (model : Option ModelFn)
    (ed : EditorDict) (replacement : Option PImage) : Output :=
  match ed.background, replacement with
  | some original, some repl =>
    (match tryBody modelAvailable model original ed.layers repl with
     | .ok t => t
     | .error e => (none, none, none, errMsg e))
  | _, _ => (none, none, none, uploadMsg)

/-- `process_segmentation` (src/app.py lines 20-86).  A `none` editor models
gradio passing `None`: subscripting it at line 30 raises a `TypeError`
before the `try:` block, modelled as a top-level `Except.error` (an
uncaught fault crossing to the presentation layer).  For a present editor
dict the function always returns a 4-tuple. -/
def run (modelAvailable : Bool) (model : Option ModelFn)
    (image_editor : Option EditorDict) (replacement : Option PImage) :
    Except String Output :=
  match image_editor with
  | none => .error typeErrMsg
  | some ed => .ok (runChecked modelAvailable model ed replacement)

/-- First slot (drawn mask) of a pipeline outcome. -/
def outSlot1 : Except String Output → Option PImage
  | .ok t => t.1
  | .error _ => none

/-- Second slot (refined mask) of a pipeline outcome. -/
def outSlot2 : Except String Output → Option PImage
  | .ok t => t.2.1
  | .error _ => none

/-- Third slot (result image) of a pipeline outcome. -/
def outSlot3 : Except String Output → Option PImage
  | .ok t => t.2.2.1
  | .error _ => none

/-- Status message of a pipeline outcome (none when a fault escaped). -/
def outMsg : Except String Output → Option String
  | .ok t => some t.2.2.2
  | .error _ => none

instance (img : PImage) : Decidable img.Valid :=
  decidable_of_iff
    (0 < img.width ∧ 0 < img.height ∧
      ∀ x, x < img.width → ∀ y, y < img.height →
        ((img.px x y).length = img.mode.channels ∧ ∀ v ∈ img.px x y, v ≤ 255))
    Iff.rfl

/-- Concrete original image for exercising the compositor theorem. -/
def c1Orig : PImage := ⟨.RGB, 1, 1, fun _ _ => [10, 20, 30]⟩

/-- Concrete replacement image for exercising the compositor theorem. -/
def c1Repl : PImage := ⟨.RGB, 1, 1, fun _ _ => [50, 60, 70]⟩

/-- Concrete half-intensity mask for exercising the compositor theorem. -/
def c1Mask : PImage := ⟨.L, 1, 1, fun _ _ => [128]⟩

/-- Concrete original image for the fallback-path witness. -/
def c3Orig : PImage := ⟨.RGB, 1, 1, fun _ _ => [100, 0, 0]⟩

/-- Concrete fully painted RGBA drawing layer (alpha 255). -/
def c3Layer : PImage := ⟨.RGBA, 1, 1, fun _ _ => [0, 0, 0, 255]⟩

/-- Concrete replacement image for the fallback-path witness. -/
def c3Repl : PImage := ⟨.RGB, 1, 1, fun _ _ => [0, 200, 0]⟩

/-- Concrete editor dict with an empty layer list (raises `IndexError`
inside the `try:` block). -/
def c4Ed : EditorDict := ⟨some c3Orig, []⟩

/-- Concrete unpainted RGBA drawing layer (alpha 0 everywhere). -/
def c6Layer : PImage := ⟨.RGBA, 1, 1, fun _ _ => [0, 0, 0, 0]⟩

/-- A strict binary mask: every in-range pixel value is 0 or 255. -/
def StrictBinary (img : PImage) : Prop :=
  ∀ x, x < img.width → ∀ y, y < img.height →
    maskVal img x y = 0 ∨ maskVal img x y = 255

instance (img : PImage) : Decidable (StrictBinary img) :=
  decidable_of_iff
    (∀ x, x < img.width → ∀ y, y < img.height →
      (maskVal img x y = 0 ∨ maskVal img x y = 255))
    Iff.rfl

/-- Concrete 2-by-2 original image (the 1-by-1 drawn layer is misaligned). -/
def c8Orig : PImage := ⟨.RGB, 2, 2, fun _ _ => [100, 0, 0]⟩

/-- Concrete original image for the mode-mismatch scenario (mode "RGB"). -/
def c10Orig : PImage := ⟨.RGB, 1, 1, fun _ _ => [100, 0, 0]⟩

/-- Concrete fully painted RGBA drawing layer for the mode-mismatch scenario. -/
def c10Layer : PImage := ⟨.RGBA, 1, 1, fun _ _ => [0, 0, 0, 255]⟩

/-- Concrete replacement image of a different pixel mode (mode "L"). -/
def c10Repl : PImage := ⟨.L, 1, 1, fun _ _ => [200]⟩

/-- The ring-with-nested-dot mask: a 5-by-5 ring blob enclosing a separate
single-pixel blob inside its hole (two disjoint foreground components). -/
def ringDotMask : PImage :=
  ⟨.L, 5, 5, fun x y =>
    [(([[255, 255, 255, 255, 255], [255, 0, 0, 0, 255], [255, 0, 255, 0, 255],
        [255, 0, 0, 0, 255], [255, 255, 255, 255, 255]].getD y []).getD x 0)]⟩

theorem muldiv255_bounds (a b : Nat) (ha : a ≤ 255) (hb : b ≤ 255) :
    a * b ≤ 255 * muldiv255 a b + 128 ∧ 255 * muldiv255 a b ≤ a * b + 127 := by
  have hab : a * b ≤ 65025 := Nat.mul_le_mul ha hb
  unfold muldiv255
  omega

theorem muldiv255_full (a : Nat) (ha : a ≤ 255) : muldiv255 a 255 = a := by
  have h := muldiv255_bounds a 255 ha (le_refl 255)
  omega

theorem muldiv255_zero (a : Nat) : muldiv255 a 0 = 0 := by
  unfold muldiv255
  omega

theorem blendChan_zero (below above : Nat) (h : below ≤ 255) :
    blendChan 0 below above = below := by
  unfold blendChan
  rw [muldiv255_zero, muldiv255_full below h]
  omega

theorem blendChan_full (below above : Nat) (h : above ≤ 255) :
    blendChan 255 below above = above := by
  unfold blendChan
  have : (255 - 255 : Nat) = 0 := rfl
  rw [this, muldiv255_zero, muldiv255_full above h]
  omega

theorem blendChan_lerp (m below above : Nat) (hm : m ≤ 255) (hb : below ≤ 255)
    (ha : above ≤ 255) :
    below * (255 - m) + above * m ≤ 255 * blendChan m below above + 256 ∧
      255 * blendChan m below above ≤ below * (255 - m) + above * m + 254 := by
  have h1 := muldiv255_bounds below (255 - m) hb (by omega)
  have h2 := muldiv255_bounds above m ha hm
  unfold blendChan
  omega

theorem zipWith_eq_left (f : Nat → Nat → Nat) :
    ∀ (l₁ l₂ : List Nat), l₁.length ≤ l₂.length →
      (∀ a ∈ l₁, ∀ b ∈ l₂, f a b = a) → List.zipWith f l₁ l₂ = l₁ := by
  intro l₁
  induction l₁ with
  | nil => intro l₂ _ _; simp
  | cons a l₁ ih =>
    intro l₂ hlen hf
    cases l₂ with
    | nil => simp at hlen
    | cons b l₂ =>
      simp only [List.zipWith]
      rw [hf a (by simp) b (by simp), ih l₂ (by simpa using hlen)]
      intro a' ha' b' hb'
      exact hf a' (by simp [ha']) b' (by simp [hb'])

theorem zipWith_eq_right (f : Nat → Nat → Nat) :
    ∀ (l₁ l₂ : List Nat), l₂.length ≤ l₁.length →
      (∀ a ∈ l₁, ∀ b ∈ l₂, f a b = b) → List.zipWith f l₁ l₂ = l₂ := by
  intro l₁
  induction l₁ with
  | nil =>
    intro l₂ hlen _
    have hnil : l₂ = [] := List.eq_nil_of_length_eq_zero (Nat.le_zero.mp hlen)
    simp [hnil]
  | cons a l₁ ih =>
    intro l₂ hlen hf
    cases l₂ with
    | nil => simp
    | cons b l₂ =>
      simp only [List.zipWith]
      rw [hf a (by simp) b (by simp), ih l₂ (by simpa using hlen)]
      intro a' ha' b' hb'
      exact hf a' (by simp [ha']) b' (by simp [hb'])

theorem getD_zipWith (f : Nat → Nat → Nat) :
    ∀ (l₁ l₂ : List Nat) (i : Nat), i < l₁.length → i < l₂.length →
      (List.zipWith f l₁ l₂).getD i 0 = f (l₁.getD i 0) (l₂.getD i 0) := by
  intro l₁
  induction l₁ with
  | nil => intro l₂ i h₁ _; simp at h₁
  | cons a l₁ ih =>
    intro l₂ i h₁ h₂
    cases l₂ with
    | nil => simp at h₂
    | cons b l₂ =>
      cases i with
      | zero => simp [List.getD]
      | succ i =>
        simp only [List.zipWith, List.getD_cons_succ]
        exact ih l₂ i (by simpa using h₁) (by simpa using h₂)

theorem getD_mem (l : List Nat) (i : Nat) (h : i < l.length) : l.getD i 0 ∈ l := by
  induction l generalizing i with
  | nil => simp at h
  | cons a l ih =>
    cases i with
    | zero => simp [List.getD]
    | succ i =>
      simp only [List.getD_cons_succ]
      exact List.mem_cons_of_mem a (ih i (by simpa using h))

theorem idx_div_lt (x w W : Nat) (hx : x < w) (hW : 0 < W) : x * W / w < W := by
  have hw : 0 < w := by omega
  apply (Nat.div_lt_iff_lt_mul hw).mpr
  have h1 : x * W < w * W := Nat.mul_lt_mul_of_pos_right hx hW
  exact lt_of_lt_of_eq h1 (Nat.mul_comm w W)

theorem resize_valid_px (img : PImage) (hV : img.Valid) (w h x y : Nat)
    (hx : x < w) (hy : y < h) :
    ((resize img w h).px x y).length = img.mode.channels ∧
      ∀ v ∈ (resize img w h).px x y, v ≤ 255 := by
  obtain ⟨hw, hh, hpx⟩ := hV
  exact hpx _ (idx_div_lt x w img.width hx hw) _ (idx_div_lt y h img.height hy hh)

theorem compositor_ok (original replacement maskIm : PImage)
    (hMode : replacement.mode = original.mode) (hMm : maskIm.mode = Mode.L)
    (hMw : maskIm.width = original.width) (hMh : maskIm.height = original.height) :
    compositor original replacement maskIm =
      .ok (blendImage original (resize replacement original.width original.height) maskIm) := by
  unfold compositor pilComposite
  rw [if_neg (by simp [hMm])]
  have h2 : ¬(original.mode ≠ (resize replacement original.width original.height).mode ∧
      ¬(original.mode = Mode.RGB ∧
        (resize replacement original.width original.height).mode = Mode.RGBA)) := by
    simp [resize, hMode]
  rw [if_neg h2, if_neg (by simp [resize, hMw, hMh])]

theorem blendImage_px (base pasted maskIm : PImage) (x y : Nat)
    (hx : x < pasted.width) (hy : y < pasted.height) :
    (blendImage base pasted maskIm).px x y =
      List.zipWith (fun below above => blendChan (maskVal maskIm x y) below above)
        (base.px x y) (pasted.px x y) := by
  simp [blendImage, hx, hy]

/-- C1: `Compositor.composite(original, replacement, mask)` first resizes the
replacement to the original's `(width, height)` and then blends per pixel:
the output pixel equals the resized replacement pixel where the mask is 255,
the original pixel where the mask is 0, and for intermediate mask values
each channel carries the linear interpolation between original and resized
replacement proportional to `mask/255` (exactly, up to Pillow's fixed-point
rounding: `255*out` is within one intensity step of
`orig*(255-m) + repl*m`); in particular with an all-zero mask the output is
pixel-identical to the original, and with an all-255 mask pixel-identical to
the resized replacement. -/
theorem C1_composite_resizes_and_blends (original replacement maskIm : PImage)
    (hO : original.Valid) (hR : replacement.Valid)
    (hMode : replacement.mode = original.mode)
    (hMm : maskIm.mode = Mode.L)
    (hMw : maskIm.width = original.width) (hMh : maskIm.height = original.height)
    (hMv : ∀ x, x < maskIm.width → ∀ y, y < maskIm.height → maskVal maskIm x y ≤ 255) :
    compositor original replacement maskIm =
      .ok (blendImage original (resize replacement original.width original.height) maskIm) ∧
    (resize replacement original.width original.height).width = original.width ∧
    (resize replacement original.width original.height).height = original.height ∧
    (resize replacement original.width original.height).mode = replacement.mode ∧
    (∀ x, x < original.width → ∀ y, y < original.height →
      (maskVal maskIm x y = 255 →
        (blendImage original (resize replacement original.width original.height) maskIm).px x y =
          (resize replacement original.width original.height).px x y) ∧
      (maskVal maskIm x y = 0 →
        (blendImage original (resize replacement original.width original.height) maskIm).px x y =
          original.px x y) ∧
      (∀ i, i < original.mode.channels →
        (original.px x y).getD i 0 * (255 - maskVal maskIm x y) +
            ((resize replacement original.width original.height).px x y).getD i 0 *
              maskVal maskIm x y ≤
          255 * (((blendImage original (resize replacement original.width original.height)
            maskIm).px x y).getD i 0) + 256 ∧
        255 * (((blendImage original (resize replacement original.width original.height)
            maskIm).px x y).getD i 0) ≤
          (original.px x y).getD i 0 * (255 - maskVal maskIm x y) +
            ((resize replacement original.width original.height).px x y).getD i 0 *
              maskVal maskIm x y + 254)) ∧
    ((∀ x, x < original.width → ∀ y, y < original.height → maskVal maskIm x y = 0) →
      PIdentical (blendImage original (resize replacement original.width original.height) maskIm)
        original) ∧
    ((∀ x, x < original.width → ∀ y, y < original.height → maskVal maskIm x y = 255) →
      PIdentical (blendImage original (resize replacement original.width original.height) maskIm)
        (resize replacement original.width original.height)) := by
  obtain ⟨hOw, hOh, hOpx⟩ := hO
  have hlenO : ∀ x, x < original.width → ∀ y, y < original.height →
      (original.px x y).length = original.mode.channels := fun x hx y hy => (hOpx x hx y hy).1
  have hvalO : ∀ x, x < original.width → ∀ y, y < original.height →
      ∀ v ∈ original.px x y, v ≤ 255 := fun x hx y hy => (hOpx x hx y hy).2
  have hlenR : ∀ x, x < original.width → ∀ y, y < original.height →
      ((resize replacement original.width original.height).px x y).length =
        original.mode.channels := by
    intro x hx y hy
    rw [(resize_valid_px replacement hR original.width original.height x y hx hy).1, hMode]
  have hvalR : ∀ x, x < original.width → ∀ y, y < original.height →
      ∀ v ∈ (resize replacement original.width original.height).px x y, v ≤ 255 :=
    fun x hx y hy => (resize_valid_px replacement hR original.width original.height x y hx hy).2
  have hmle : ∀ x, x < original.width → ∀ y, y < original.height → maskVal maskIm x y ≤ 255 := by
    intro x hx y hy
    exact hMv x (by omega) y (by omega)
  have hbpx : ∀ x, x < original.width → ∀ y, y < original.height →
      (blendImage original (resize replacement original.width original.height) maskIm).px x y =
        List.zipWith (fun below above => blendChan (maskVal maskIm x y) below above)
          (original.px x y)
          ((resize replacement original.width original.height).px x y) :=
    fun x hx y hy =>
      blendImage_px original (resize replacement original.width original.height) maskIm x y hx hy
  have hfull : ∀ x, x < original.width → ∀ y, y < original.height → maskVal maskIm x y = 255 →
      (blendImage original (resize replacement original.width original.height) maskIm).px x y =
        (resize replacement original.width original.height).px x y := by
    intro x hx y hy hm
    rw [hbpx x hx y hy]
    simp only [hm]
    exact zipWith_eq_right _ _ _ (by rw [hlenO x hx y hy, hlenR x hx y hy])
      (fun a _ b hb => blendChan_full a b (hvalR x hx y hy b hb))
  have hzero : ∀ x, x < original.width → ∀ y, y < original.height → maskVal maskIm x y = 0 →
      (blendImage original (resize replacement original.width original.height) maskIm).px x y =
        original.px x y := by
    intro x hx y hy hm
    rw [hbpx x hx y hy]
    simp only [hm]
    exact zipWith_eq_left _ _ _ (by rw [hlenO x hx y hy, hlenR x hx y hy])
      (fun a ha b _ => blendChan_zero a b (hvalO x hx y hy a ha))
  refine ⟨compositor_ok original replacement maskIm hMode hMm hMw hMh, rfl, rfl, rfl, ?_, ?_, ?_⟩
  · intro x hx y hy
    refine ⟨hfull x hx y hy, hzero x hx y hy, ?_⟩
    intro i hi
    have hiO : i < (original.px x y).length := by rw [hlenO x hx y hy]; exact hi
    have hiR : i < ((resize replacement original.width original.height).px x y).length := by
      rw [hlenR x hx y hy]; exact hi
    rw [hbpx x hx y hy, getD_zipWith _ _ _ i hiO hiR]
    exact blendChan_lerp (maskVal maskIm x y) ((original.px x y).getD i 0)
      (((resize replacement original.width original.height).px x y).getD i 0)
      (hmle x hx y hy) (hvalO x hx y hy _ (getD_mem _ i hiO))
      (hvalR x hx y hy _ (getD_mem _ i hiR))
  · intro hall
    exact ⟨rfl, rfl, rfl, fun x hx y hy => hzero x hx y hy (hall x hx y hy)⟩
  · intro hall
    exact ⟨hMode.symm, rfl, rfl, fun x hx y hy => hfull x hx y hy (hall x hx y hy)⟩

/-- C1 witness: the compositor theorem instantiated at concrete 1-by-1
images with an intermediate mask value. -/
theorem C1_composite_resizes_and_blends_witness :
    compositor c1Orig c1Repl c1Mask =
      .ok (blendImage c1Orig (resize c1Repl c1Orig.width c1Orig.height) c1Mask) :=
  (C1_composite_resizes_and_blends c1Orig c1Repl c1Mask (by decide) (by decide) rfl rfl rfl rfl
    (by decide)).1

theorem compositor_ok_size (original replacement maskIm : PImage)
    (hMm : maskIm.mode = Mode.L)
    (hMw : maskIm.width = original.width) (hMh : maskIm.height = original.height) :
    ∃ out, compositor original replacement maskIm = .ok out := by
  unfold compositor pilComposite
  rw [if_neg (by simp [hMm])]
  by_cases hc : original.mode ≠ (resize replacement original.width original.height).mode ∧
      ¬(original.mode = Mode.RGB ∧
        (resize replacement original.width original.height).mode = Mode.RGBA)
  · rw [if_pos hc, if_neg (by simp [convertIm, resize, hMw, hMh])]
    exact ⟨_, rfl⟩
  · rw [if_neg hc, if_neg (by simp [resize, hMw, hMh])]
    exact ⟨_, rfl⟩

theorem compositor_mismatch (original replacement maskIm : PImage)
    (hMm : maskIm.mode = Mode.L)
    (hSize : maskIm.width ≠ original.width ∨ maskIm.height ≠ original.height) :
    compositor original replacement maskIm = .error "images do not match" := by
  unfold compositor pilComposite
  rw [if_neg (by simp [hMm])]
  by_cases hc : original.mode ≠ (resize replacement original.width original.height).mode ∧
      ¬(original.mode = Mode.RGB ∧
        (resize replacement original.width original.height).mode = Mode.RGBA)
  · rw [if_pos hc, if_pos (by simpa [convertIm, resize] using hSize)]
  · rw [if_neg hc, if_pos (by simpa [resize] using hSize)]

theorem run_fallback_success (original replacement layer0 : PImage) (rest : List PImage)
    (modelAvailable : Bool) (model : Option ModelFn)
    (hUnavail : modelAvailable = false ∨ model.isNone = true)
    (hPts : extract (splitLast layer0) ≠ [])
    (hLw : layer0.width = original.width) (hLh : layer0.height = original.height) :
    outSlot1 (run modelAvailable model (some ⟨some original, layer0 :: rest⟩)
        (some replacement)) = some (splitLast layer0) ∧
    outSlot2 (run modelAvailable model (some ⟨some original, layer0 :: rest⟩)
        (some replacement)) = some (splitLast layer0) ∧
    (outSlot3 (run modelAvailable model (some ⟨some original, layer0 :: rest⟩)
        (some replacement))).isSome = true ∧
    outMsg (run modelAvailable model (some ⟨some original, layer0 :: rest⟩)
        (some replacement)) = some warnMsg := by
  obtain ⟨res, hres⟩ := compositor_ok_size original replacement (splitLast layer0) rfl hLw hLh
  have hstep : (!modelAvailable || model.isNone) = true := by
    rcases hUnavail with h | h
    · simp [h]
    · simp [h]
  cases hp : extract (splitLast layer0) with
  | nil => exact absurd hp hPts
  | cons p ps =>
    simp [run, runChecked, tryBody, hp, hstep, fallbackRefine, hres,
      outSlot1, outSlot2, outSlot3, outMsg]

/-- C3: `FallbackProvider.refine` returns its input mask unchanged with the
warning message and never fails (identity law); consequently a run with a
model-unavailable provider, both images present, and an aligned drawn-mask
layer yielding at least one point returns the success tuple whose
refined-mask slot equals the drawn mask and whose message is the
warning-severity string. -/
theorem C3_fallback_identity_and_success (original replacement layer0 : PImage)
    (rest : List PImage) (modelAvailable : Bool) (model : Option ModelFn)
    (hUnavail : modelAvailable = false ∨ model.isNone = true)
    (hPts : extract (splitLast layer0) ≠ [])
    (hLw : layer0.width = original.width) (hLh : layer0.height = original.height) :
    (∀ (o : PImage) (ps : List (ℚ × ℚ)) (m : PImage), fallbackRefine o ps m = (m, warnMsg)) ∧
    outSlot1 (run modelAvailable model (some ⟨some original, layer0 :: rest⟩)
        (some replacement)) = some (splitLast layer0) ∧
    outSlot2 (run modelAvailable model (some ⟨some original, layer0 :: rest⟩)
        (some replacement)) = some (splitLast layer0) ∧
    (outSlot3 (run modelAvailable model (some ⟨some original, layer0 :: rest⟩)
        (some replacement))).isSome = true ∧
    outMsg (run modelAvailable model (some ⟨some original, layer0 :: rest⟩)
        (some replacement)) = some warnMsg ∧
    warnMsg = "**⚠️ Warning:** " ++ "SAM2 model unavailable, using drawn mask as mask." :=
  ⟨fun _ _ _ => rfl,
    (run_fallback_success original replacement layer0 rest modelAvailable model
      hUnavail hPts hLw hLh).1,
    (run_fallback_success original replacement layer0 rest modelAvailable model
      hUnavail hPts hLw hLh).2.1,
    (run_fallback_success original replacement layer0 rest modelAvailable model
      hUnavail hPts hLw hLh).2.2.1,
    (run_fallback_success original replacement layer0 rest modelAvailable model
      hUnavail hPts hLw hLh).2.2.2,
    rfl⟩

/-- C3 witness: the fallback run on concrete 1-by-1 inputs carries the drawn
mask through to the refined-mask slot. -/
theorem C3_fallback_identity_and_success_witness :
    outSlot2 (run false none (some ⟨some c3Orig, [c3Layer]⟩) (some c3Repl)) =
      some (splitLast c3Layer) :=
  (C3_fallback_identity_and_success c3Orig c3Repl c3Layer [] false none
    (Or.inl rfl) (by decide) rfl rfl).2.2.1

/-- C4 fails as stated: when gradio hands the pipeline a null editor
structure, the validation subscript `image_editor["background"]` at line 30
runs before the `try:` block and raises an uncaught `TypeError` - a fault
does propagate to the presentation layer for that input. -/
theorem C4_null_editor_fault_propagates :
    run false none none (some c3Repl) = .error typeErrMsg := rfl

/-- C4 (amended): for every run whose editor structure is non-null, no fault
propagates - the outcome is always a returned 4-tuple, and whenever the
`try:` body fails with error `e` the tuple is the Failure shape with `e`'s
description embedded in the message. -/
theorem C4_nonnull_editor_catches_all (modelAvailable : Bool) (model : Option ModelFn)
    (ed : EditorDict) (replacement : Option PImage) :
    run modelAvailable model (some ed) replacement =
      .ok (runChecked modelAvailable model ed replacement) ∧
    (∀ original repl e, ed.background = some original → replacement = some repl →
      tryBody modelAvailable model original ed.layers repl = .error e →
      runChecked modelAvailable model ed replacement = (none, none, none, errMsg e)) ∧
    (∀ e, errMsg e = "**❌ Error:** Segmentation error: " ++ e) := by
  refine ⟨rfl, ?_, fun e => rfl⟩
  intro original repl e hbg hrepl htb
  simp [runChecked, hbg, hrepl, htb]

/-- C4 witness: the empty-layers editor makes the body fail with an
`IndexError` which is caught and embedded in the Failure message. -/
theorem C4_nonnull_editor_catches_all_witness :
    runChecked false none c4Ed (some c3Repl) = (none, none, none, errMsg indexErrMsg) :=
  (C4_nonnull_editor_catches_all false none c4Ed (some c3Repl)).2.1
    c3Orig c3Repl indexErrMsg rfl rfl rfl

/-- C5: a null original or a null replacement short-circuits to the upload
Failure with all three image slots unpopulated, independently of the model
handle, the availability flag and the drawn layers (no further processing). -/
theorem C5_missing_input_fails_fast (modelAvailable : Bool) (model : Option ModelFn)
    (ed : EditorDict) (replacement : Option PImage)
    (h : ed.background = none ∨ replacement = none) :
    run modelAvailable model (some ed) replacement = .ok (none, none, none, uploadMsg) := by
  rcases h with h | h
  · simp [run, runChecked, h]
  · cases hb : ed.background <;> simp [run, runChecked, h, hb]

/-- C5 witness: concrete missing-original run returns the upload Failure. -/
theorem C5_missing_input_fails_fast_witness :
    run false none (some ⟨none, [c3Layer]⟩) (some c3Repl) =
      .ok (none, none, none, uploadMsg) :=
  C5_missing_input_fails_fast false none ⟨none, [c3Layer]⟩ (some c3Repl) (Or.inl rfl)

/-- C6: with both images present but no points extracted from the drawn
mask, the run returns the "No mask drawn" Failure whose result-image slot
carries the original image so the caller can still display it. -/
theorem C6_no_points_failure_carries_original (modelAvailable : Bool)
    (model : Option ModelFn) (original replacement layer0 : PImage) (rest : List PImage)
    (hPts : extract (splitLast layer0) = []) :
    run modelAvailable model (some ⟨some original, layer0 :: rest⟩) (some replacement) =
      .ok (none, none, some original, noMaskMsg) := by
  simp [run, runChecked, tryBody, hPts]

/-- C6 witness: the all-transparent layer yields no points and the run
returns the "No mask drawn" Failure carrying the original. -/
theorem C6_no_points_failure_carries_original_witness :
    run false none (some ⟨some c3Orig, [c6Layer]⟩) (some c3Repl) =
      .ok (none, none, some c3Orig, noMaskMsg) :=
  C6_no_points_failure_carries_original false none c3Orig c3Repl c6Layer [] (by decide)

theorem getD_any_mem {α : Type} (l : List α) (d : α) (i : Nat) (h : i < l.length) :
    l.getD i d ∈ l := by
  induction l generalizing i with
  | nil => simp at h
  | cons a l ih =>
    cases i with
    | zero => simp [List.getD]
    | succ i =>
      simp only [List.getD_cons_succ]
      exact List.mem_cons_of_mem a (ih i (by simpa using h))

theorem getD_any_default {α : Type} (l : List α) (d : α) (i : Nat) (h : l.length ≤ i) :
    l.getD i d = d := by
  induction l generalizing i with
  | nil => simp [List.getD]
  | cons a l ih =>
    cases i with
    | zero => simp at h
    | succ i =>
      simp only [List.getD_cons_succ]
      exact ih i (by simpa using h)

/-- C7 fails as stated: the model-output value 1/2 lies in [0,1] yet
post-processes to `floor(0.5 * 255) = 127`, which is neither 0 nor 255,
so the produced mask is not strict binary. -/
theorem C7_intermediate_value_not_binary :
    (0 ≤ (1 : ℚ)/2 ∧ (1 : ℚ)/2 ≤ 1) ∧
    maskVal (postprocess [[(1 : ℚ)/2]]) 0 0 = 127 ∧
    ¬ StrictBinary (postprocess [[(1 : ℚ)/2]]) := by
  have hval : maskVal (postprocess [[(1 : ℚ)/2]]) 0 0 = 127 := by
    show (⌊(1 : ℚ)/2 * 255⌋).toNat % 256 = 127
    norm_num
    decide
  refine ⟨by norm_num, hval, ?_⟩
  intro h
  have h00 := h 0 (by norm_num [postprocess]) 0 (by norm_num [postprocess])
  rw [hval] at h00
  omega

/-- C7 (amended): for a boolean (0/1-valued) model output array the
post-processing does produce a strict binary 0/255 single-channel mask, and
its spatial dimensions are exactly the array's dimensions (hence they match
the original image's whenever the model returns a same-size array); values
strictly between 0 and 1, however, are scaled to `floor(255*v)` and are not
binarized. -/
theorem C7_boolean_output_strict_binary (arr : List (List ℚ))
    (h : ∀ row ∈ arr, ∀ v ∈ row, v = 0 ∨ v = 1) :
    StrictBinary (postprocess arr) ∧
    (postprocess arr).mode = Mode.L ∧
    (postprocess arr).width = (arr.headD []).length ∧
    (postprocess arr).height = arr.length := by
  refine ⟨?_, rfl, rfl, rfl⟩
  intro x _ y hy
  have hyrow : arr.getD y [] ∈ arr := getD_any_mem arr [] y hy
  by_cases hxlen : x < (arr.getD y []).length
  · have hmem : (arr.getD y []).getD x 0 ∈ arr.getD y [] := getD_any_mem _ 0 x hxlen
    have hpx : maskVal (postprocess arr) x y =
        (⌊((arr.getD y []).getD x 0) * 255⌋).toNat % 256 := rfl
    rcases h _ hyrow _ hmem with h0 | h1
    · left
      rw [hpx, h0]
      norm_num
    · right
      rw [hpx, h1]
      norm_num
      decide
  · left
    have hdef : (arr.getD y []).getD x 0 = 0 := getD_any_default _ 0 x (by omega)
    have hpx : maskVal (postprocess arr) x y =
        (⌊((arr.getD y []).getD x 0) * 255⌋).toNat % 256 := rfl
    rw [hpx, hdef]
    norm_num

/-- C7 witness: a concrete boolean output array post-processes to a strict
binary mask of its own dimensions. -/
theorem C7_boolean_output_strict_binary_witness :
    StrictBinary (postprocess [[(0 : ℚ), 1], [1, 0]]) :=
  (C7_boolean_output_strict_binary [[(0 : ℚ), 1], [1, 0]] (by norm_num)).1

/-- C8: a mask whose dimensions differ from the original's makes the
compositor raise `ValueError("images do not match")` - never a silently
cropped or padded composite - and the pipeline surfaces it as a Failure
tuple with no images populated. -/
theorem C8_mask_dim_mismatch_fails (original replacement maskIm layer0 : PImage)
    (rest : List PImage) (model : Option ModelFn)
    (hMm : maskIm.mode = Mode.L)
    (hSize : maskIm.width ≠ original.width ∨ maskIm.height ≠ original.height)
    (hPts : extract (splitLast layer0) ≠ [])
    (hLsize : layer0.width ≠ original.width ∨ layer0.height ≠ original.height) :
    compositor original replacement maskIm = .error "images do not match" ∧
    run false model (some ⟨some original, layer0 :: rest⟩) (some replacement) =
      .ok (none, none, none, errMsg "images do not match") := by
  refine ⟨compositor_mismatch original replacement maskIm hMm hSize, ?_⟩
  cases hp : extract (splitLast layer0) with
  | nil => exact absurd hp hPts
  | cons p ps =>
    have hcm : compositor original replacement (splitLast layer0) =
        .error "images do not match" :=
      compositor_mismatch original replacement (splitLast layer0) rfl hLsize
    simp [run, runChecked, tryBody, hp, fallbackRefine, hcm]

/-- C8 witness: a 1-by-1 drawn mask against a 2-by-2 original surfaces the
`images do not match` Failure with no images populated. -/
theorem C8_mask_dim_mismatch_fails_witness :
    run false none (some ⟨some c8Orig, [c3Layer]⟩) (some c3Repl) =
      .ok (none, none, none, errMsg "images do not match") :=
  (C8_mask_dim_mismatch_fails c8Orig c3Repl (splitLast c3Layer) c3Layer [] none
    rfl (Or.inl (by decide)) (by decide) (Or.inl (by decide))).2

/-- C9: with the fallback provider in effect (model unavailable) the
pipeline is a deterministic function of its inputs - in particular the
outcome is independent of whatever model handle is held, so two invocations
with identical inputs yield identical outcomes (same masks, same result
image, same message). -/
theorem C9_fallback_deterministic (model1 model2 : Option ModelFn)
    (image_editor : Option EditorDict) (replacement : Option PImage) :
    run false model1 image_editor replacement = run false model2 image_editor replacement := by
  cases image_editor with
  | none => rfl
  | some ed =>
    cases hb : ed.background with
    | none => simp [run, runChecked, hb]
    | some original =>
      cases hr : replacement with
      | none => simp [run, runChecked, hb, hr]
      | some repl =>
        have htb : tryBody false model1 original ed.layers repl =
            tryBody false model2 original ed.layers repl := by
          cases hl : ed.layers with
          | nil => rfl
          | cons layer0 rest => simp [tryBody]
        simp [run, runChecked, hb, hr, htb]

/-- C10 fails as stated: with an RGB original and a grayscale ("L")
replacement the run does not return a Failure - PIL's paste silently
converts the replacement to the original's mode, and the pipeline returns
the populated success-shaped tuple with the fallback warning message. -/
theorem C10_mode_mismatch_is_not_failure :
    c10Repl.mode ≠ c10Orig.mode ∧
    outSlot1 (run false none (some ⟨some c10Orig, [c10Layer]⟩) (some c10Repl)) =
      some (splitLast c10Layer) ∧
    outSlot2 (run false none (some ⟨some c10Orig, [c10Layer]⟩) (some c10Repl)) =
      some (splitLast c10Layer) ∧
    (outSlot3 (run false none (some ⟨some c10Orig, [c10Layer]⟩) (some c10Repl))).isSome =
      true ∧
    outMsg (run false none (some ⟨some c10Orig, [c10Layer]⟩) (some c10Repl)) =
      some warnMsg := by
  exact ⟨by decide, rfl, rfl, rfl, rfl⟩

/-- C10 (amended): a pixel-mode mismatch between the images does not make
compositing fail - the resize step matches only the spatial dimensions and
never the pixel mode, and the paste inside `Image.composite` converts the
replacement's pixels to the original's mode (or blends the compatible
four-byte "RGBA"-onto-"RGB" layout directly), so with an aligned mask the
compositor succeeds and the model-unavailable run returns the populated
success tuple, not a Failure. -/
theorem C10_mode_mismatch_converts (original replacement maskIm layer0 : PImage)
    (rest : List PImage) (model : Option ModelFn)
    (hModes : replacement.mode ≠ original.mode)
    (hMm : maskIm.mode = Mode.L) (hMw : maskIm.width = original.width)
    (hMh : maskIm.height = original.height)
    (hPts : extract (splitLast layer0) ≠ [])
    (hLw : layer0.width = original.width) (hLh : layer0.height = original.height) :
    (resize replacement original.width original.height).mode = replacement.mode ∧
    (compositor original replacement maskIm).isOk = true ∧
    outMsg (run false model (some ⟨some original, layer0 :: rest⟩) (some replacement)) =
      some warnMsg ∧
    (outSlot3 (run false model (some ⟨some original, layer0 :: rest⟩)
        (some replacement))).isSome = true := by
  obtain ⟨out, hout⟩ := compositor_ok_size original replacement maskIm hMm hMw hMh
  refine ⟨rfl, by rw [hout]; rfl, ?_, ?_⟩
  · exact (run_fallback_success original replacement layer0 rest false model
      (Or.inl rfl) hPts hLw hLh).2.2.2
  · exact (run_fallback_success original replacement layer0 rest false model
      (Or.inl rfl) hPts hLw hLh).2.2.1

/-- C10 witness: the amended theorem at the concrete RGB original and "L"
replacement. -/
theorem C10_mode_mismatch_converts_witness :
    (compositor c10Orig c10Repl (splitLast c10Layer)).isOk = true :=
  (C10_mode_mismatch_converts c10Orig c10Repl (splitLast c10Layer) c10Layer [] none
    (by decide) rfl rfl rfl (by decide) rfl rfl).2.1

theorem mem_rasterPixels (img : PImage) (p : Int × Int) (hp : p ∈ rasterPixels img) :
    ∃ x y : Nat, x < img.width ∧ y < img.height ∧ p = (Int.ofNat x, Int.ofNat y) := by
  rw [rasterPixels, List.mem_flatMap] at hp
  obtain ⟨y, hy, hpy⟩ := hp
  rw [List.mem_map] at hpy
  obtain ⟨x, hx, rfl⟩ := hpy
  exact ⟨x, y, List.mem_range.mp hx, List.mem_range.mp hy, rfl⟩

theorem extract_of_blank (img : PImage)
    (h : ∀ x, x < img.width → ∀ y, y < img.height → maskVal img x y = 0) :
    extract img = [] := by
  have hfg : fgPixels img = [] := by
    rw [fgPixels, List.filter_eq_nil_iff]
    intro p hp
    obtain ⟨x, y, hx, hy, rfl⟩ := mem_rasterPixels img p hp
    simp [fgAt, h x hx y hy]
  rw [extract, findContoursExt, componentsOf, hfg]
  rfl

/-- Evidence on the extractor: the ring-with-dot mask has two disjoint
foreground components, yet external contour retrieval skips the component
nested inside the ring's hole, so only one prompt point is produced. -/
theorem ringDot_two_blobs_one_point :
    (componentsOf ringDotMask).length = 2 ∧ (extract ringDotMask).length = 1 :=
  ⟨rfl, rfl⟩
